import Mathlib

/-!
Shallow embedding of `src/credit_card_fraud.py`, a single Streamlit script
that collects transaction attributes, derives a geographic distance feature,
encodes categorical fields with pre-fitted label encoders, hashes the card
number, and feeds the resulting one-row feature table to a pre-trained
binary classifier.

Modelling conventions:
* Python exceptions are an explicit `PyError` type; fallible steps return
  `Except PyError _`.
* The pandas one-row DataFrame is a `Row`: an association list from column
  name to cell `Value`, preserving column order.
* The classifier (`model.predict(...)[0]`) and the fitted label encoders are
  external artifacts; the classifier is an abstract function on rows, a
  label encoder is its fitted class list (`transform` maps a seen class to
  its index and raises `ValueError` on an unseen value).
* Python's process-wide string `hash` is an abstract function fixed by the
  process environment `Env`.
* The Streamlit surface is modelled as the list of `Display` events the
  script renders during one run.
-/

namespace FraudDetection

/-- The Python exception kinds relevant to this script. -/
inductive PyError where
  | valueError
  | keyError
  | typeError
  | fileNotFoundError
  | otherError
deriving DecidableEq

/-- A cell of the one-row DataFrame: the script stores strings, integers,
rationals (form numbers) and the real-valued distance. -/
inductive Value where
  | str (s : String)
  | int (z : Int)
  | rat (q : ℚ)
  | real (r : ℝ)

/-- The one-row DataFrame: column name to cell value, in column order. -/
abbrev Row := List (String × Value)

/-- A fitted sklearn `LabelEncoder`: its `classes_` list, fixed at fit time. -/
structure LabelEncoder where
  classes : List String

/-- `LabelEncoder.transform` on a single value: a class seen during fitting
maps to its integer code (its index in `classes_`); an unseen value raises
`ValueError`. -/
def LabelEncoder.transform1 (e : LabelEncoder) (s : String) : Except PyError Int :=
  match e.classes.findIdx? (fun c => c == s) with
  | some i => .ok (i : Int)
  | none => .error .valueError

/-- The classifier artifact: `model.predict(row)[0]`, an opaque single-row
prediction that yields an integer label or raises. -/
abbrev Model := Row → Except PyError Int

/-- The encoder artifact: the Python dict from column name to fitted encoder. -/
abbrev EncDict := List (String × LabelEncoder)

/-- Process-wide environment: Python's built-in string `hash` for this
process run (fixed for the lifetime of the process). -/
structure Env where
  pyHash : String → Int

/-- The raw form inputs of one submission. Text inputs are strings; the
number inputs are decimal values (modelled as rationals); the sliders are
integers; `gender` comes from a selectbox. -/
structure FormInput where
  merchant : String
  category : String
  amt : ℚ
  lat : ℚ
  long : ℚ
  merch_lat : ℚ
  merch_long : ℚ
  hour : Int
  day : Int
  month : Int
  gender : String
  cc_num : String

/-! ### Geo-distance calculator (`haversine`, lines 31-36) -/

/-- A latitude/longitude pair is in range: latitude in [-90, 90] and
longitude in [-180, 180]. -/
def validCoord (lat lon : ℚ) : Prop :=
  (-90 ≤ lat ∧ lat ≤ 90) ∧ (-180 ≤ lon ∧ lon ≤ 180)

instance (lat lon : ℚ) : Decidable (validCoord lat lon) :=
  inferInstanceAs (Decidable ((-90 ≤ lat ∧ lat ≤ 90) ∧ (-180 ≤ lon ∧ lon ≤ 180)))

/-- Degrees to radians. -/
noncomputable def toRad (q : ℚ) : ℝ := (q : ℝ) * (Real.pi / 180)

/-- Modelled from the spec: the great-circle distance in kilometers between
two latitude/longitude pairs (spec §2 and glossary: "Geodesic distance:
great-circle distance between two points on Earth's surface, in
kilometers"). The underlying geodesic computation lives in the external
geopy library, which is not part of this repository. -/
noncomputable def greatCircleKm (lat1 lon1 lat2 lon2 : ℚ) : ℝ :=
  6371.0088 * Real.arccos
    (Real.sin (toRad lat1) * Real.sin (toRad lat2) +
      Real.cos (toRad lat1) * Real.cos (toRad lat2) *
        Real.cos (toRad lon1 - toRad lon2))

/-- Modelled from the spec: `geopy.distance.geodesic(p1, p2).km`. Spec §4.2:
"On any input producing an invalid coordinate pair (out-of-range values)",
the call fails with `ValueError`; on valid pairs it returns the geodesic
distance in kilometers. The geopy implementation is external to this
repository. -/
noncomputable def geodesicKm (lat1 lon1 lat2 lon2 : ℚ) : Except PyError ℝ :=
  if validCoord lat1 lon1 ∧ validCoord lat2 lon2 then
    .ok (greatCircleKm lat1 lon1 lat2 lon2)
  else
    .error .valueError

/-- `haversine` (lines 31-36): returns `geodesic((lat1, lon1), (lat2, lon2)).km`,
and on `ValueError` returns 0. The modelled geodesic call raises only
`ValueError`, so the catch makes the function total. -/
noncomputable def haversine (lat1 lon1 lat2 lon2 : ℚ) : ℝ :=
  match geodesicKm lat1 lon1 lat2 lon2 with
  | .ok d => d
  | .error _ => 0

/-! ### Feature preprocessing (lines 101-123) -/

/-- `input_data` (lines 105-108): the one-row DataFrame with its nine named
columns in source order. -/
def buildRow (inp : FormInput) (distance : ℝ) : Row :=
  [("merchant", Value.str inp.merchant),
   ("category", Value.str inp.category),
   ("amt", Value.rat inp.amt),
   ("distance", Value.real distance),
   ("hour", Value.int inp.hour),
   ("day", Value.int inp.day),
   ("month", Value.int inp.month),
   ("gender", Value.str inp.gender),
   ("cc_num", Value.str inp.cc_num)]

/-- `categorical_col` (line 111). -/
def categorical_col : List String := ["merchant", "category", "gender"]

/-- Pandas column assignment `df[col] = v` on the one-row frame: replaces the
cell of an existing column `col`. (Every column assigned by the script
already exists in the frame.) -/
def setCol (row : Row) (col : String) (v : Value) : Row :=
  row.map fun kv => if kv.1 = col then (kv.1, v) else kv

/-- One iteration of the encoding loop (lines 114-120):
`input_data_processed[col] = encoder[col].transform(input_data_processed[col])`
wrapped in `try ... except ValueError: input_data_processed[col] = -1`.
A missing dict key (`encoder[col]`) raises `KeyError`, which the
`except ValueError` does not catch; a transform failure on an unseen value
is caught and the column is set to the sentinel -1. The column cell is a
string whenever this step runs. -/
def encodeCol (enc : EncDict) (row : Row) (col : String) : Except PyError Row :=
  match enc.lookup col with
  | none => .error .keyError
  | some e =>
    match row.lookup col with
    | some (Value.str s) =>
      match e.transform1 s with
      | .ok code => .ok (setCol row col (.int code))
      | .error .valueError => .ok (setCol row col (.int (-1)))
      | .error err => .error err
    | _ => .error .typeError

/-- The `for col in categorical_col` loop (lines 114-120), stopping at the
first uncaught exception. -/
def encodeAll (enc : EncDict) (row : Row) (cols : List String) : Except PyError Row :=
  match cols with
  | [] => .ok row
  | c :: cs =>
    match encodeCol enc row c with
    | .ok r => encodeAll enc r cs
    | .error e => .error e

/-- Card-number hashing (line 123):
`input_data_processed['cc_num'].apply(lambda x: hash(x) % (10 ** 2))`.
The `cc_num` cell is still the raw card string at this point. -/
def hashCC (env : Env) (row : Row) : Except PyError Row :=
  match row.lookup "cc_num" with
  | some (Value.str s) => .ok (setCol row "cc_num" (.int (env.pyHash s % 100)))
  | _ => .error .typeError

/-- The preprocessing body of the `try` block (lines 101-123): compute the
distance, build the row, run the categorical-encoding loop on a copy, hash
the card number. -/
noncomputable def preprocess (env : Env) (enc : EncDict) (inp : FormInput) :
    Except PyError Row :=
  match encodeAll enc
      (buildRow inp (haversine inp.lat inp.long inp.merch_lat inp.merch_long))
      categorical_col with
  | .ok row => hashCC env row
  | .error e => .error e

/-- Preprocessing followed by `prediction = model.predict(input_data_processed)[0]`
(line 126); the prediction is paired with the processed row it was computed
from. -/
noncomputable def pipeline (env : Env) (m : Model) (enc : EncDict) (inp : FormInput) :
    Except PyError (Int × Row) :=
  match preprocess env enc inp with
  | .ok row =>
    match m row with
    | .ok p => .ok (p, row)
    | .error e => .error e
  | .error e => .error e

/-! ### The script run (loading, validation, prediction, display) -/

/-- The user-visible surface: one rendered element per constructor. -/
inductive Display where
  | loadError
  | validationError
  | fraudVerdict
  | legitVerdict
  | processedRow (row : Row)
  | genericError

/-- `load_models` (lines 17-26): deserializing the two artifact files either
succeeds, raises `FileNotFoundError` (caught: an error message is shown and
`(None, None)` is returned), or raises something else (uncaught). `disk`
is what `joblib.load`-ing the two files yields. -/
def load_models (disk : Except PyError (Model × EncDict)) :
    Except PyError ((Option Model × Option EncDict) × List Display) :=
  match disk with
  | .ok (m, e) => .ok ((some m, some e), [])
  | .error .fileNotFoundError => .ok ((none, none), [.loadError])
  | .error e => .error e

/-- The display block of lines 129-136: one of the two mutually exclusive
verdicts, then the processed-row expander. -/
def renderResult (p : Int) (row : Row) : List Display :=
  (if p = 1 then [Display.fraudVerdict] else [Display.legitVerdict]) ++
    [Display.processedRow row]

/-- One full run of the script (lines 28 and 91-139): load the artifacts,
and if the form was submitted run the guard `if not model or not encoder:
st.stop()` (line 93, stop on a missing object or an empty encoder dict,
whose Python truthiness is false), then the required-field validation
`if not all([merchant, category, cc_num])` (line 97), then the `try` block:
the pipeline followed by the verdict display, with any exception caught
and shown as the generic error message (line 139). The result is the list
of rendered display events, or the exception that escaped the script. -/
noncomputable def runScript (env : Env) (disk : Except PyError (Model × EncDict))
    (submitted : Bool) (inp : FormInput) : Except PyError (List Display) :=
  match load_models disk with
  | .error e => .error e
  | .ok ((om, oe), d0) =>
    if submitted then
      match om, oe with
      | some m, some enc =>
        if enc.isEmpty then .ok d0
        else if inp.merchant = "" ∨ inp.category = "" ∨ inp.cc_num = "" then
          .ok (d0 ++ [Display.validationError])
        else
          match pipeline env m enc inp with
          | .ok (p, row) => .ok (d0 ++ renderResult p row)
          | .error _ => .ok (d0 ++ [Display.genericError])
      | _, _ => .ok d0
    else .ok d0

/-! ### Evaluation lemmas -/

/-- The integer the encoding loop leaves in a categorical column: the
encoder's trained code when the value was seen during fitting, the sentinel
-1 when the transform fails. -/
def catCode (e : LabelEncoder) (s : String) : Int :=
  match e.transform1 s with
  | .ok z => z
  | .error _ => -1

/-- The raw submitted string belonging to a categorical column. -/
def rawCat (inp : FormInput) (col : String) : String :=
  if col = "merchant" then inp.merchant
  else if col = "category" then inp.category
  else if col = "gender" then inp.gender
  else ""

/-- The fully processed feature row, written out explicitly. -/
noncomputable def procRow (env : Env) (inp : FormInput) (em ec eg : LabelEncoder) : Row :=
  [("merchant", Value.int (catCode em inp.merchant)),
   ("category", Value.int (catCode ec inp.category)),
   ("amt", Value.rat inp.amt),
   ("distance", Value.real (haversine inp.lat inp.long inp.merch_lat inp.merch_long)),
   ("hour", Value.int inp.hour),
   ("day", Value.int inp.day),
   ("month", Value.int inp.month),
   ("gender", Value.int (catCode eg inp.gender)),
   ("cc_num", Value.int (env.pyHash inp.cc_num % 100))]

theorem encodeCol_eval (enc : EncDict) (row : Row) (col : String)
    (e : LabelEncoder) (s : String)
    (he : enc.lookup col = some e) (hr : row.lookup col = some (Value.str s)) :
    encodeCol enc row col = .ok (setCol row col (.int (catCode e s))) := by
  cases hi : e.classes.findIdx? (fun c => c == s) <;>
    simp [encodeCol, he, hr, LabelEncoder.transform1, catCode, hi]

/-- With all three encoders present in the dict, preprocessing succeeds and
produces exactly `procRow`. -/
theorem preprocess_eval (env : Env) (enc : EncDict) (inp : FormInput)
    (em ec eg : LabelEncoder)
    (hm : enc.lookup "merchant" = some em)
    (hc : enc.lookup "category" = some ec)
    (hg : enc.lookup "gender" = some eg) :
    preprocess env enc inp = .ok (procRow env inp em ec eg) := by
  cases hi1 : em.classes.findIdx? (fun c => c == inp.merchant) <;>
  cases hi2 : ec.classes.findIdx? (fun c => c == inp.category) <;>
  cases hi3 : eg.classes.findIdx? (fun c => c == inp.gender) <;>
    simp [preprocess, encodeAll, categorical_col, encodeCol, buildRow, hm, hc, hg,
      LabelEncoder.transform1, hi1, hi2, hi3, hashCC, setCol, procRow, catCode,
      List.lookup]

/-- If preprocessing succeeded, the encoder dict contains all three
categorical columns. -/
theorem preprocess_ok_encoders (env : Env) (enc : EncDict) (inp : FormInput)
    (row : Row) (h : preprocess env enc inp = .ok row) :
    (∃ em, enc.lookup "merchant" = some em) ∧
    (∃ ec, enc.lookup "category" = some ec) ∧
    (∃ eg, enc.lookup "gender" = some eg) := by
  cases hm : enc.lookup "merchant" with
  | none => simp [preprocess, encodeAll, categorical_col, encodeCol, hm] at h
  | some em =>
    cases hc : enc.lookup "category" with
    | none =>
      cases hi1 : em.classes.findIdx? (fun c => c == inp.merchant) <;>
        simp [preprocess, encodeAll, categorical_col, encodeCol, buildRow, hm, hc,
          LabelEncoder.transform1, hi1, setCol, List.lookup] at h
    | some ec =>
      cases hg : enc.lookup "gender" with
      | none =>
        cases hi1 : em.classes.findIdx? (fun c => c == inp.merchant) <;>
        cases hi2 : ec.classes.findIdx? (fun c => c == inp.category) <;>
          simp [preprocess, encodeAll, categorical_col, encodeCol, buildRow, hm, hc, hg,
            LabelEncoder.transform1, hi1, hi2, setCol, List.lookup] at h
      | some eg => exact ⟨⟨em, rfl⟩, ⟨ec, rfl⟩, ⟨eg, rfl⟩⟩

/-- Symmetry of the great-circle distance. -/
theorem greatCircleKm_symm (a b c d : ℚ) :
    greatCircleKm a b c d = greatCircleKm c d a b := by
  unfold greatCircleKm
  have h : Real.sin (toRad a) * Real.sin (toRad c) +
      Real.cos (toRad a) * Real.cos (toRad c) * Real.cos (toRad b - toRad d) =
      Real.sin (toRad c) * Real.sin (toRad a) +
      Real.cos (toRad c) * Real.cos (toRad a) * Real.cos (toRad d - toRad b) := by
    rw [Real.cos_sub, Real.cos_sub]; ring
  rw [h]

/-! ### A concrete scenario, used by the witnesses -/

def sampleEncM : LabelEncoder := ⟨["Acme", "BobShop"]⟩
def sampleEncC : LabelEncoder := ⟨["food"]⟩
def sampleEncG : LabelEncoder := ⟨["Female", "Male"]⟩

def sampleEnc : EncDict :=
  [("merchant", sampleEncM), ("category", sampleEncC), ("gender", sampleEncG)]

/-- A possible process-wide string hash. -/
def sampleEnv : Env := ⟨fun s => (s.length : Int)⟩

def sampleInp : FormInput :=
  { merchant := "Acme", category := "grocery", amt := 45.5,
    lat := 40, long := -73, merch_lat := 40.1, merch_long := -73.1,
    hour := 14, day := 5, month := 3, gender := "Male",
    cc_num := "4111111111111111" }

noncomputable def sampleRow : Row :=
  procRow sampleEnv sampleInp sampleEncM sampleEncC sampleEncG

def sampleModel : Model := fun _ => .ok 1

def sampleModel2 : Model := fun _ => .ok 2

def failModel : Model := fun _ => .error .typeError

example : preprocess sampleEnv sampleEnc sampleInp = .ok sampleRow := rfl
example : pipeline sampleEnv sampleModel sampleEnc sampleInp = .ok (1, sampleRow) := rfl
example : sampleRow.lookup "merchant" = some (.int 0) := rfl
example : sampleRow.lookup "category" = some (.int (-1)) := rfl
example : sampleRow.lookup "gender" = some (.int 1) := rfl
example : sampleRow.lookup "cc_num" = some (.int 16) := rfl
example : ¬ (validCoord 200 0 ∧ validCoord 0 0) := by decide
example : validCoord 10 20 := by decide
example : pipeline sampleEnv failModel sampleEnc sampleInp = .error .typeError := rfl

/-! ### The claims -/

/-- C5: for every pair of coordinate pairs containing an out-of-range
latitude or longitude value (for example latitude 200), the underlying
geodesic call fails with `ValueError` and `haversine` returns 0 rather than
propagating the exception. -/
theorem claim5_invalid_coords_give_zero (lat1 lon1 lat2 lon2 : ℚ)
    (h : ¬ (validCoord lat1 lon1 ∧ validCoord lat2 lon2)) :
    geodesicKm lat1 lon1 lat2 lon2 = .error .valueError ∧
    haversine lat1 lon1 lat2 lon2 = 0 := by
  have hg : geodesicKm lat1 lon1 lat2 lon2 = .error .valueError := by
    unfold geodesicKm; rw [if_neg h]
  refine ⟨hg, ?_⟩
  unfold haversine; rw [hg]

theorem claim5_witness :
    geodesicKm 200 0 0 0 = .error .valueError ∧ haversine 200 0 0 0 = 0 :=
  claim5_invalid_coords_give_zero 200 0 0 0 (by decide)

/-- C9: for every two valid coordinate pairs, `haversine` is symmetric in
its two points. -/
theorem claim9_distance_symmetric (lat1 lon1 lat2 lon2 : ℚ)
    (h1 : validCoord lat1 lon1) (h2 : validCoord lat2 lon2) :
    haversine lat1 lon1 lat2 lon2 = haversine lat2 lon2 lat1 lon1 := by
  unfold haversine geodesicKm
  rw [if_pos ⟨h1, h2⟩, if_pos ⟨h2, h1⟩]
  exact greatCircleKm_symm lat1 lon1 lat2 lon2

theorem claim9_witness : haversine 10 20 30 40 = haversine 30 40 10 20 :=
  claim9_distance_symmetric 10 20 30 40 (by decide) (by decide)

/-- C8: whenever preprocessing succeeds, the `cc_num` cell of the produced
feature row is `hash(card) mod 100`, and any second successful call in the
same process environment with the same card value produces the same
`cc_num` cell. -/
theorem claim8_cc_hash_deterministic (env : Env) (enc : EncDict)
    (inp : FormInput) (row : Row) (h : preprocess env enc inp = .ok row) :
    row.lookup "cc_num" = some (Value.int (env.pyHash inp.cc_num % 100)) ∧
    (∀ inp2 row2, preprocess env enc inp2 = .ok row2 →
      inp2.cc_num = inp.cc_num →
      row2.lookup "cc_num" = row.lookup "cc_num") := by
  obtain ⟨⟨em, hm⟩, ⟨ec, hc⟩, ⟨eg, hg⟩⟩ := preprocess_ok_encoders env enc inp row h
  rw [preprocess_eval env enc inp em ec eg hm hc hg] at h
  injection h with h
  subst h
  refine ⟨rfl, ?_⟩
  intro inp2 row2 h2 hcc
  obtain ⟨⟨em2, hm2⟩, ⟨ec2, hc2⟩, ⟨eg2, hg2⟩⟩ :=
    preprocess_ok_encoders env enc inp2 row2 h2
  rw [preprocess_eval env enc inp2 em2 ec2 eg2 hm2 hc2 hg2] at h2
  injection h2 with h2
  subst h2
  show some (Value.int (env.pyHash inp2.cc_num % 100)) =
    some (Value.int (env.pyHash inp.cc_num % 100))
  rw [hcc]

theorem claim8_witness :
    preprocess sampleEnv sampleEnc sampleInp = .ok sampleRow ∧
    sampleRow.lookup "cc_num" = some (Value.int 16) :=
  ⟨rfl, (claim8_cc_hash_deterministic sampleEnv sampleEnc sampleInp sampleRow rfl).1⟩

/-- C2: for each categorical column among merchant, category and gender
whose encoder is present in the dict, if the submitted value was seen
during fitting (the forward transform succeeds with code `z`) the produced
feature row holds `z` in that column, and if the transform fails the row
holds the sentinel -1 there instead of the failure propagating. -/
theorem claim2_categorical_encoding (env : Env) (enc : EncDict)
    (inp : FormInput) (row : Row) (col : String) (e : LabelEncoder)
    (hcol : col ∈ categorical_col) (he : enc.lookup col = some e)
    (h : preprocess env enc inp = .ok row) :
    (∀ z : Int, e.transform1 (rawCat inp col) = .ok z →
      row.lookup col = some (Value.int z)) ∧
    (∀ err : PyError, e.transform1 (rawCat inp col) = .error err →
      row.lookup col = some (Value.int (-1))) := by
  obtain ⟨⟨em, hm⟩, ⟨ec, hc⟩, ⟨eg, hg⟩⟩ := preprocess_ok_encoders env enc inp row h
  rw [preprocess_eval env enc inp em ec eg hm hc hg] at h
  injection h with h
  subst h
  simp only [categorical_col, List.mem_cons, List.not_mem_nil, or_false] at hcol
  rcases hcol with rfl | rfl | rfl
  · rw [hm] at he; injection he with he; subst he
    constructor
    · intro z hz
      show some (Value.int (catCode em inp.merchant)) = some (Value.int z)
      have hr : rawCat inp "merchant" = inp.merchant := rfl
      rw [hr] at hz
      simp [catCode, hz]
    · intro err hz
      show some (Value.int (catCode em inp.merchant)) = some (Value.int (-1))
      have hr : rawCat inp "merchant" = inp.merchant := rfl
      rw [hr] at hz
      simp [catCode, hz]
  · rw [hc] at he; injection he with he; subst he
    constructor
    · intro z hz
      show some (Value.int (catCode ec inp.category)) = some (Value.int z)
      have hr : rawCat inp "category" = inp.category := by simp [rawCat]
      rw [hr] at hz
      simp [catCode, hz]
    · intro err hz
      show some (Value.int (catCode ec inp.category)) = some (Value.int (-1))
      have hr : rawCat inp "category" = inp.category := by simp [rawCat]
      rw [hr] at hz
      simp [catCode, hz]
  · rw [hg] at he; injection he with he; subst he
    constructor
    · intro z hz
      show some (Value.int (catCode eg inp.gender)) = some (Value.int z)
      have hr : rawCat inp "gender" = inp.gender := by simp [rawCat]
      rw [hr] at hz
      simp [catCode, hz]
    · intro err hz
      show some (Value.int (catCode eg inp.gender)) = some (Value.int (-1))
      have hr : rawCat inp "gender" = inp.gender := by simp [rawCat]
      rw [hr] at hz
      simp [catCode, hz]

theorem claim2_witness :
    preprocess sampleEnv sampleEnc sampleInp = .ok sampleRow ∧
    sampleRow.lookup "merchant" = some (Value.int 0) ∧
    sampleRow.lookup "category" = some (Value.int (-1)) := by
  refine ⟨rfl, ?_, ?_⟩
  · exact (claim2_categorical_encoding sampleEnv sampleEnc sampleInp sampleRow
      "merchant" sampleEncM (by decide) rfl rfl).1 0 rfl
  · exact (claim2_categorical_encoding sampleEnv sampleEnc sampleInp sampleRow
      "category" sampleEncC (by decide) rfl rfl).2 .valueError rfl

/-- C3: every feature row produced by preprocessing has exactly the nine
columns merchant, category, amt (amount), distance, hour, day, month,
gender, cc_num (card number), in that fixed order, and the prediction step
of the pipeline applies the classifier to exactly that row. -/
theorem claim3_row_schema (env : Env) (enc : EncDict) (inp : FormInput)
    (row : Row) (h : preprocess env enc inp = .ok row) :
    row.map Prod.fst =
      ["merchant", "category", "amt", "distance", "hour", "day", "month",
       "gender", "cc_num"] ∧
    ∀ m : Model, pipeline env m enc inp =
      match m row with
      | .ok p => .ok (p, row)
      | .error e => .error e := by
  obtain ⟨⟨em, hm⟩, ⟨ec, hc⟩, ⟨eg, hg⟩⟩ := preprocess_ok_encoders env enc inp row h
  have hrow := h
  rw [preprocess_eval env enc inp em ec eg hm hc hg] at hrow
  injection hrow with hrow
  subst hrow
  refine ⟨rfl, ?_⟩
  intro m
  simp [pipeline, h]

theorem claim3_witness :
    preprocess sampleEnv sampleEnc sampleInp = .ok sampleRow ∧
    sampleRow.map Prod.fst =
      ["merchant", "category", "amt", "distance", "hour", "day", "month",
       "gender", "cc_num"] :=
  ⟨rfl, (claim3_row_schema sampleEnv sampleEnc sampleInp sampleRow rfl).1⟩

/-- If the pipeline produced a prediction, preprocessing succeeded. -/
theorem pipeline_ok_preprocess (env : Env) (m : Model) (enc : EncDict)
    (inp : FormInput) (p : Int) (row : Row)
    (hp : pipeline env m enc inp = .ok (p, row)) :
    ∃ r, preprocess env enc inp = .ok r := by
  cases hq : preprocess env enc inp with
  | ok r => exact ⟨r, rfl⟩
  | error e => simp [pipeline, hq] at hp

/-- If preprocessing succeeded, the encoder dict is nonempty (so the
`not encoder` guard does not stop the script). -/
theorem preprocess_ok_enc_nonempty (env : Env) (enc : EncDict)
    (inp : FormInput) (row : Row) (h : preprocess env enc inp = .ok row) :
    enc.isEmpty = false := by
  obtain ⟨⟨em, hm⟩, _, _⟩ := preprocess_ok_encoders env enc inp row h
  cases enc with
  | nil => simp [List.lookup] at hm
  | cons a l => rfl

/-- C1: for every submission in which merchant, category and card number
are non-empty, with artifacts loaded and the pipeline (preprocessing plus
prediction) raising no exception, the script renders exactly one of the two
verdicts — never both and never neither. -/
theorem claim1_exactly_one_verdict (env : Env) (m : Model) (enc : EncDict)
    (inp : FormInput) (p : Int) (row : Row)
    (hm : inp.merchant ≠ "") (hc : inp.category ≠ "") (hcc : inp.cc_num ≠ "")
    (hp : pipeline env m enc inp = .ok (p, row)) :
    ∃ ds, runScript env (.ok (m, enc)) true inp = .ok ds ∧
      ((Display.fraudVerdict ∈ ds ∧ Display.legitVerdict ∉ ds) ∨
       (Display.legitVerdict ∈ ds ∧ Display.fraudVerdict ∉ ds)) := by
  obtain ⟨r, hr⟩ := pipeline_ok_preprocess env m enc inp p row hp
  have hne := preprocess_ok_enc_nonempty env enc inp r hr
  refine ⟨renderResult p row, ?_, ?_⟩
  · simp [runScript, load_models, hne, hm, hc, hcc, hp]
  · by_cases h1 : p = 1 <;> simp [renderResult, h1]

theorem claim1_witness :
    ∃ ds, runScript sampleEnv (.ok (sampleModel, sampleEnc)) true sampleInp =
        .ok ds ∧
      ((Display.fraudVerdict ∈ ds ∧ Display.legitVerdict ∉ ds) ∨
       (Display.legitVerdict ∈ ds ∧ Display.fraudVerdict ∉ ds)) :=
  claim1_exactly_one_verdict sampleEnv sampleModel sampleEnc sampleInp 1
    sampleRow (by decide) (by decide) (by decide) rfl

/-- C10: under the same conditions as C1, the fraud verdict is rendered
exactly when the prediction equals 1, and the legitimate verdict is
rendered for every other prediction value — not only 0. -/
theorem claim10_fraud_iff_one (env : Env) (m : Model) (enc : EncDict)
    (inp : FormInput) (p : Int) (row : Row)
    (hm : inp.merchant ≠ "") (hc : inp.category ≠ "") (hcc : inp.cc_num ≠ "")
    (hp : pipeline env m enc inp = .ok (p, row)) :
    ∃ ds, runScript env (.ok (m, enc)) true inp = .ok ds ∧
      (Display.fraudVerdict ∈ ds ↔ p = 1) ∧
      (Display.legitVerdict ∈ ds ↔ p ≠ 1) := by
  obtain ⟨r, hr⟩ := pipeline_ok_preprocess env m enc inp p row hp
  have hne := preprocess_ok_enc_nonempty env enc inp r hr
  refine ⟨renderResult p row, ?_, ?_, ?_⟩
  · simp [runScript, load_models, hne, hm, hc, hcc, hp]
  · by_cases h1 : p = 1 <;> simp [renderResult, h1]
  · by_cases h1 : p = 1 <;> simp [renderResult, h1]

theorem claim10_witness :
    ∃ ds, runScript sampleEnv (.ok (sampleModel2, sampleEnc)) true sampleInp =
        .ok ds ∧
      (Display.fraudVerdict ∈ ds ↔ (2 : Int) = 1) ∧
      (Display.legitVerdict ∈ ds ↔ (2 : Int) ≠ 1) :=
  claim10_fraud_iff_one sampleEnv sampleModel2 sampleEnc sampleInp 2
    sampleRow (by decide) (by decide) (by decide) rfl

/-- C4: if the artifact files are missing, the loader shows its error and
returns the empty pair `(None, None)`, and every subsequent submission runs
`st.stop()` before validation, preprocessing or prediction: the only thing
ever rendered is the loader's error message. -/
theorem claim4_missing_artifacts (env : Env) (submitted : Bool)
    (inp : FormInput) :
    load_models (.error .fileNotFoundError) =
      .ok ((none, none), [Display.loadError]) ∧
    runScript env (.error .fileNotFoundError) submitted inp =
      .ok [Display.loadError] := by
  refine ⟨rfl, ?_⟩
  cases submitted <;> rfl

/-- C6: if merchant, category or card number is empty at submission (and
the artifacts loaded), the script renders exactly the validation error: no
feature row is built, no prediction is attempted, no verdict is shown. -/
theorem claim6_validation_rejects (env : Env) (m : Model) (enc : EncDict)
    (inp : FormInput) (hne : enc.isEmpty = false)
    (he : inp.merchant = "" ∨ inp.category = "" ∨ inp.cc_num = "") :
    runScript env (.ok (m, enc)) true inp = .ok [Display.validationError] := by
  simp [runScript, load_models, hne, if_pos he]

def emptyMerchantInp : FormInput := { sampleInp with merchant := "" }

theorem claim6_witness :
    runScript sampleEnv (.ok (sampleModel, sampleEnc)) true emptyMerchantInp =
      .ok [Display.validationError] :=
  claim6_validation_rejects sampleEnv sampleModel sampleEnc emptyMerchantInp
    rfl (Or.inl rfl)

/-- C7 as stated is false on the code; this exhibits it at concrete inputs.
The claim says every exception raised anywhere in steps 4.1-4.5 — artifact
loading included — during submission handling is caught at the top level
and surfaced as the single generic error message. But artifact loading
(line 28) is outside the submission `try` block: a non-`FileNotFoundError`
loading exception escapes the script uncaught, and a `FileNotFoundError`
is caught inside the loader and surfaced as the loader's own message, not
the generic one. -/
theorem claim7_counterexample :
    runScript sampleEnv (.error .typeError) true sampleInp =
      .error .typeError ∧
    runScript sampleEnv (.error .fileNotFoundError) true sampleInp =
      .ok [Display.loadError] ∧
    Display.genericError ∉ [Display.loadError] := by
  refine ⟨rfl, rfl, ?_⟩
  simp

/-- C7 amended: every exception raised inside the submission `try` block —
distance computation, preprocessing, prediction, presentation — is caught
and surfaced as exactly the single generic error message, with no partial
result shown; artifact-loading exceptions are handled separately:
`FileNotFoundError` is caught inside the loader and surfaced as the
loader's own message, and any other loading exception propagates
uncaught. -/
theorem claim7_generic_catch :
    (∀ (env : Env) (m : Model) (enc : EncDict) (inp : FormInput)
        (err : PyError),
      enc.isEmpty = false →
      inp.merchant ≠ "" → inp.category ≠ "" → inp.cc_num ≠ "" →
      pipeline env m enc inp = .error err →
      runScript env (.ok (m, enc)) true inp = .ok [Display.genericError]) ∧
    (∀ (env : Env) (inp : FormInput),
      runScript env (.error .fileNotFoundError) true inp =
        .ok [Display.loadError]) ∧
    (∀ (env : Env) (inp : FormInput) (err : PyError),
      err ≠ .fileNotFoundError →
      runScript env (.error err) true inp = .error err) := by
  refine ⟨?_, ?_, ?_⟩
  · intro env m enc inp err hne hm hc hcc hp
    simp [runScript, load_models, hne, hm, hc, hcc, hp]
  · intro env inp
    rfl
  · intro env inp err herr
    cases err with
    | valueError => rfl
    | keyError => rfl
    | typeError => rfl
    | fileNotFoundError => exact absurd rfl herr
    | otherError => rfl

theorem claim7_witness :
    runScript sampleEnv (.ok (failModel, sampleEnc)) true sampleInp =
      .ok [Display.genericError] :=
  claim7_generic_catch.1 sampleEnv failModel sampleEnc sampleInp .typeError
    rfl (by decide) (by decide) (by decide) rfl

end FraudDetection
